import Mathlib

/-!
Shallow embedding of the `rssafecircuit` circuit breaker (src/src/lib.rs).

Time (`Instant`/`Duration`) is modelled in milliseconds as `Nat`; every
operation that reads `Instant::now()` in the source takes an explicit
`now : Nat` argument.  The `tokio::sync::broadcast` sender is modelled by
its active receiver count (`subscribers`): `send` succeeds exactly when at
least one receiver is subscribed.  `new` drops its initial receiver
immediately, so a fresh breaker has `subscribers = 0`.  A failed
`send(..).unwrap()` (in `trip` and in the half-open transition inside
`execute`) is a panic, recorded in the `panicked` flag of the step output;
the field mutations preceding the `send` have already happened at that
point and are kept.  `reset` only logs a failed send and never panics.
Counters are `u32` in the source; they are modelled as `Nat` (the source
would panic on overflow in a checked build rather than wrap).
-/

namespace RsSafeCircuit

/-- The three breaker states, from `enum CircuitBreakerState`. -/
inductive CircuitBreakerState where
  | Closed
  | Open
  | HalfOpen
  deriving DecidableEq, Repr

/-- The breaker record, from `struct CircuitBreaker`.  `subscribers` models
the active receiver count of the broadcast sender. -/
structure CircuitBreaker where
  state : CircuitBreakerState
  consecutive_failures : Nat
  total_failures : Nat
  total_successes : Nat
  max_failures : Nat
  timeout : Nat
  open_timeout : Nat
  pause_time : Nat
  consecutive_successes : Nat
  subscribers : Nat
  deriving DecidableEq, Repr

/-- The fixed message of the synthetic rejection error in `execute`. -/
def msgOpen : String := "Circuit breaker is open"

/-- The event emitted by `trip`. -/
def evOpen : String := "open"

/-- The event emitted by `reset`. -/
def evClose : String := "close"

/-- The event emitted by the Open-to-HalfOpen transition in `execute`. -/
def evHalfOpen : String := "halfOpen"

/-- `CircuitBreaker::new(max_failures, timeout, pause_time)`.  `timeout` is
seconds in the source (`Duration::from_secs`), converted here to the
millisecond time base; `pause_time` is already milliseconds
(`Duration::from_millis`).  `open_timeout` is initialised to `Instant::now()`,
i.e. the `now` argument; the temporary receiver of the constructor is dropped, so
`subscribers = 0`. -/
def new (max_failures timeout pause_time now : Nat) : CircuitBreaker :=
  { state := CircuitBreakerState.Closed
    consecutive_failures := 0
    total_failures := 0
    total_successes := 0
    max_failures := max_failures
    timeout := timeout * 1000
    open_timeout := now
    pause_time := pause_time
    consecutive_successes := 0
    subscribers := 0 }

/-- Output of a state-mutating call: the breaker after the call, the events
actually delivered to subscribers, and whether the call panicked (a failed
`send(..).unwrap()`). -/
structure StepOut where
  cb : CircuitBreaker
  events : List String
  panicked : Bool
  deriving DecidableEq, Repr

/-- `CircuitBreaker::trip`: set state to `Open`, zero both consecutive
counters, set `open_timeout = now + timeout`, then `send("open").unwrap()`,
which panics when no subscriber is registered. -/
def trip (now : Nat) (cb : CircuitBreaker) : StepOut :=
  { cb := { cb with
      state := CircuitBreakerState.Open
      consecutive_failures := 0
      consecutive_successes := 0
      open_timeout := now + cb.timeout }
    events := if 0 < cb.subscribers then [evOpen] else []
    panicked := if 0 < cb.subscribers then false else true }

/-- `CircuitBreaker::reset`: set state to `Closed`, zero both consecutive
counters, then send `"close"`; a send failure is only logged, never fatal. -/
def reset (cb : CircuitBreaker) : StepOut :=
  { cb := { cb with
      state := CircuitBreakerState.Closed
      consecutive_failures := 0
      consecutive_successes := 0 }
    events := if 0 < cb.subscribers then [evClose] else []
    panicked := false }

/-- `CircuitBreaker::handle_failure`: increment `consecutive_failures` and
`total_failures`; if the new `consecutive_failures` reaches `max_failures`,
call `trip`. -/
def handle_failure (now : Nat) (cb : CircuitBreaker) : StepOut :=
  let cb1 : CircuitBreaker := { cb with
    consecutive_failures := cb.consecutive_failures + 1
    total_failures := cb.total_failures + 1 }
  if cb1.max_failures ≤ cb1.consecutive_failures then trip now cb1
  else { cb := cb1, events := [], panicked := false }

/-- `CircuitBreaker::handle_success`: call `reset`, then increment
`total_successes`. -/
def handle_success (cb : CircuitBreaker) : StepOut :=
  let r := reset cb
  { cb := { r.cb with total_successes := r.cb.total_successes + 1 }
    events := r.events
    panicked := r.panicked }

/-- Output of `execute`: the breaker after the call, the returned
`Result<String, String>` (`none` when the call panicked and returned
nothing), how many times the wrapped operation was invoked, the delivered
events, the total delay awaited (`delay(pause_time)`), and the panic flag. -/
structure ExecOut where
  cb : CircuitBreaker
  result : Option (Except String String)
  invocations : Nat
  events : List String
  waited : Nat
  panicked : Bool
  deriving Repr

/-- The tail of `execute` after the `match`: invoke the operation once and
route its result through `handle_success` / `handle_failure`.  `op` is the
result the wrapped operation produces when invoked. -/
def closedPath (now : Nat) (op : Except String String) (cb : CircuitBreaker) : ExecOut :=
  match op with
  | Except.ok res =>
    let s := handle_success cb
    { cb := s.cb, result := some (Except.ok res), invocations := 1, events := s.events
      waited := 0, panicked := s.panicked }
  | Except.error err =>
    let s := handle_failure now cb
    { cb := s.cb
      result := if s.panicked then none else some (Except.error err)
      invocations := 1, events := s.events, waited := 0, panicked := s.panicked }

/-- `CircuitBreaker::execute`.  While `Open`: if `now > open_timeout`, set
state to `HalfOpen` and `send("halfOpen").unwrap()` (panic when no
subscriber), then fall through to the closed path; otherwise return the
synthetic error without invoking the operation.  While `HalfOpen`: invoke
the operation, await `pause_time`, and return its result unchanged.  While
`Closed`: fall through to the closed path. -/
def execute (now : Nat) (op : Except String String) (cb : CircuitBreaker) : ExecOut :=
  match cb.state with
  | CircuitBreakerState.Open =>
    if cb.open_timeout < now then
      let cb1 : CircuitBreaker := { cb with state := CircuitBreakerState.HalfOpen }
      if 0 < cb.subscribers then
        let r := closedPath now op cb1
        { r with events := evHalfOpen :: r.events }
      else
        { cb := cb1, result := none, invocations := 0, events := [], waited := 0
          panicked := true }
    else
      { cb := cb, result := some (Except.error msgOpen), invocations := 0, events := []
        waited := 0, panicked := false }
  | CircuitBreakerState.HalfOpen =>
    { cb := cb, result := some op, invocations := 1, events := [], waited := cb.pause_time
      panicked := false }
  | CircuitBreakerState.Closed => closedPath now op cb

/-- One public operation on the breaker, for reasoning about call
sequences. -/
inductive Op where
  | execute (now : Nat) (op : Except String String)
  | handle_success
  | handle_failure (now : Nat)
  | trip (now : Nat)
  | reset

/-- The breaker state after one public operation. -/
def applyOp (o : Op) (cb : CircuitBreaker) : CircuitBreaker :=
  match o with
  | Op.execute now op => (execute now op cb).cb
  | Op.handle_success => (handle_success cb).cb
  | Op.handle_failure now => (handle_failure now cb).cb
  | Op.trip now => (trip now cb).cb
  | Op.reset => (reset cb).cb

/-- The breaker state after a sequence of public operations. -/
def runOps (ops : List Op) (cb : CircuitBreaker) : CircuitBreaker :=
  ops.foldl (fun c o => applyOp o c) cb

/-- A sequence of `n` consecutive `handle_failure` calls, returning the final
breaker and the concatenation of all delivered events in order. -/
def runFailures (now : Nat) : Nat → CircuitBreaker → CircuitBreaker × List String
  | 0, cb => (cb, [])
  | n + 1, cb =>
    let s := handle_failure now cb
    let r := runFailures now n s.cb
    (r.1, s.events ++ r.2)

/-- A sample breaker sitting in the `Open` state with a live subscriber. -/
def cbOpenSample : CircuitBreaker :=
  { state := CircuitBreakerState.Open
    consecutive_failures := 0
    total_failures := 3
    total_successes := 2
    max_failures := 3
    timeout := 1000
    open_timeout := 50
    pause_time := 10
    consecutive_successes := 0
    subscribers := 1 }

/-- A sample payload for a successful operation. -/
def okPayload : String := "payload"

/-- A sample reason for a failing operation. -/
def errReason : String := "boom"

/-- C1: while `Open` with the cooldown not elapsed (`now <= open_timeout`),
`execute` returns the synthetic `"Circuit breaker is open"` error, never
invokes the operation, emits nothing, and leaves the whole breaker record
(state and all counters) unchanged. -/
theorem execute_open_rejects (now : Nat) (op : Except String String) (cb : CircuitBreaker)
    (hs : cb.state = CircuitBreakerState.Open) (ht : now ≤ cb.open_timeout) :
    execute now op cb =
      { cb := cb, result := some (Except.error msgOpen), invocations := 0, events := []
        waited := 0, panicked := false } := by
  unfold execute
  rw [hs]
  simp [Nat.not_lt.mpr ht]

/-- Witness for C1 at a concrete breaker and call time. -/
theorem execute_open_rejects_witness :
    cbOpenSample.state = CircuitBreakerState.Open ∧ (7 : Nat) ≤ cbOpenSample.open_timeout ∧
    execute 7 (Except.ok okPayload) cbOpenSample =
      { cb := cbOpenSample, result := some (Except.error msgOpen), invocations := 0
        events := [], waited := 0, panicked := false } :=
  ⟨rfl, by decide, execute_open_rejects 7 (Except.ok okPayload) cbOpenSample rfl (by decide)⟩

/-- A sample breaker sitting in the `HalfOpen` state. -/
def cbHalfOpenSample : CircuitBreaker :=
  { state := CircuitBreakerState.HalfOpen
    consecutive_failures := 2
    total_failures := 5
    total_successes := 1
    max_failures := 3
    timeout := 1000
    open_timeout := 40
    pause_time := 25
    consecutive_successes := 0
    subscribers := 1 }

/-- A sample breaker sitting in the `Closed` state with a live subscriber,
one failure short of its threshold. -/
def cbClosedSample : CircuitBreaker :=
  { state := CircuitBreakerState.Closed
    consecutive_failures := 2
    total_failures := 4
    total_successes := 6
    max_failures := 3
    timeout := 2000
    open_timeout := 0
    pause_time := 5
    consecutive_successes := 0
    subscribers := 1 }

/-- C3: while already `HalfOpen` at call time, `execute` invokes the
operation once, waits `pause_time`, returns the result of the operation
verbatim, and leaves the whole breaker record (state and every counter)
unchanged; consequently any number of repeated such calls leaves the
breaker `HalfOpen` with the same record. -/
theorem execute_halfopen_passthrough (now : Nat) (op : Except String String)
    (cb : CircuitBreaker) (hs : cb.state = CircuitBreakerState.HalfOpen) :
    execute now op cb =
      { cb := cb, result := some op, invocations := 1, events := [], waited := cb.pause_time
        panicked := false } ∧
    ∀ n : Nat, (fun c => (execute now op c).cb)^[n] cb = cb := by
  have h1 : execute now op cb =
      { cb := cb, result := some op, invocations := 1, events := [], waited := cb.pause_time
        panicked := false } := by
    unfold execute
    rw [hs]
  exact ⟨h1, fun n => Function.iterate_fixed (by rw [h1]) n⟩

/-- Witness for C3 at a concrete half-open breaker. -/
theorem execute_halfopen_passthrough_witness :
    cbHalfOpenSample.state = CircuitBreakerState.HalfOpen ∧
    (execute 9 (Except.error errReason) cbHalfOpenSample =
      { cb := cbHalfOpenSample, result := some (Except.error errReason), invocations := 1
        events := [], waited := cbHalfOpenSample.pause_time, panicked := false } ∧
    ∀ n : Nat, (fun c => (execute 9 (Except.error errReason) c).cb)^[n] cbHalfOpenSample =
      cbHalfOpenSample) :=
  ⟨rfl, execute_halfopen_passthrough 9 (Except.error errReason) cbHalfOpenSample rfl⟩

/-- C4: `handle_failure` always bumps `total_failures` by one (and leaves
`total_successes` alone); when the incremented `consecutive_failures`
reaches `max_failures` the call is exactly a `trip` of the incremented
record, leaving the state `Open`; below the threshold the only change is
the two incremented counters, so the state is untouched. -/
theorem handle_failure_spec (now : Nat) (cb : CircuitBreaker) :
    (handle_failure now cb).cb.total_failures = cb.total_failures + 1 ∧
    (handle_failure now cb).cb.total_successes = cb.total_successes ∧
    (cb.max_failures ≤ cb.consecutive_failures + 1 →
      handle_failure now cb =
        trip now { cb with
          consecutive_failures := cb.consecutive_failures + 1
          total_failures := cb.total_failures + 1 } ∧
      (handle_failure now cb).cb.state = CircuitBreakerState.Open) ∧
    (cb.consecutive_failures + 1 < cb.max_failures →
      (handle_failure now cb).cb =
        { cb with
          consecutive_failures := cb.consecutive_failures + 1
          total_failures := cb.total_failures + 1 } ∧
      (handle_failure now cb).cb.state = cb.state) := by
  unfold handle_failure
  by_cases h : cb.max_failures ≤ cb.consecutive_failures + 1
  · simp [h, trip]
  · simp [h, Nat.lt_of_not_le h]

/-- Witness for C4: at the sample closed breaker (2 of 3 failures) a third
failure trips the breaker to `Open`. -/
theorem handle_failure_spec_witness :
    (handle_failure 11 cbClosedSample).cb.state = CircuitBreakerState.Open :=
  ((handle_failure_spec 11 cbClosedSample).2.2.1 (by decide)).2

/-- C5: `handle_success` resets first and then counts the success: the
result is `Closed` with both consecutive counters zero, `total_successes`
bumped by one, `total_failures` untouched, no panic, and (when a subscriber
exists) a `"close"` event delivered regardless of the prior state — in
particular also when the breaker was already `Closed`. -/
theorem handle_success_spec (cb : CircuitBreaker) :
    (handle_success cb).cb.state = CircuitBreakerState.Closed ∧
    (handle_success cb).cb.consecutive_failures = 0 ∧
    (handle_success cb).cb.consecutive_successes = 0 ∧
    (handle_success cb).cb.total_successes = cb.total_successes + 1 ∧
    (handle_success cb).cb.total_failures = cb.total_failures ∧
    (handle_success cb).panicked = false ∧
    (0 < cb.subscribers → (handle_success cb).events = [evClose]) := by
  unfold handle_success reset
  by_cases h : 0 < cb.subscribers <;> simp [h]

/-- Witness for C5 at a breaker that is already `Closed` and has a
subscriber: the `"close"` event is still delivered. -/
theorem handle_success_spec_witness :
    (handle_success cbClosedSample).cb.state = CircuitBreakerState.Closed ∧
    (handle_success cbClosedSample).cb.total_successes = cbClosedSample.total_successes + 1 ∧
    (handle_success cbClosedSample).events = [evClose] :=
  ⟨(handle_success_spec cbClosedSample).1,
   (handle_success_spec cbClosedSample).2.2.2.1,
   (handle_success_spec cbClosedSample).2.2.2.2.2.2 (by decide)⟩

/-- C8: `trip` immediately followed by `reset` leaves the breaker `Closed`
with both consecutive counters at zero, whatever their previous values, and
leaves both lifetime totals unchanged. -/
theorem trip_then_reset (now : Nat) (cb : CircuitBreaker) :
    (reset (trip now cb).cb).cb.state = CircuitBreakerState.Closed ∧
    (reset (trip now cb).cb).cb.consecutive_failures = 0 ∧
    (reset (trip now cb).cb).cb.consecutive_successes = 0 ∧
    (reset (trip now cb).cb).cb.total_failures = cb.total_failures ∧
    (reset (trip now cb).cb).cb.total_successes = cb.total_successes := by
  simp [trip, reset]

/-- With at least one subscriber, the closed path never panics: the only
panic site it can reach is the `send("open").unwrap()` inside `trip`, and
that send succeeds. -/
theorem closedPath_no_panic (now : Nat) (op : Except String String) (cb : CircuitBreaker)
    (h : 0 < cb.subscribers) : (closedPath now op cb).panicked = false := by
  cases op with
  | ok s => simp [closedPath, handle_success, reset]
  | error e =>
    simp only [closedPath, handle_failure]
    split <;> simp [trip, h]

/-- C2: while `Open` with the cooldown elapsed (`now > open_timeout`) and a
subscriber registered (so the `"halfOpen"` emission succeeds), `execute`
transitions to `HalfOpen`, delivers `"halfOpen"` first, invokes the
operation exactly once, and applies normal accounting to the half-open
record: a success goes through `handle_success` (leaving the breaker
`Closed`) and returns the payload; a failure goes through `handle_failure`
(which may re-trip to `Open`) and returns the failure reason. -/
theorem execute_open_elapsed_probe (now : Nat) (op : Except String String)
    (cb : CircuitBreaker) (hs : cb.state = CircuitBreakerState.Open)
    (ht : cb.open_timeout < now) (hsub : 0 < cb.subscribers) :
    (execute now op cb).invocations = 1 ∧
    (execute now op cb).panicked = false ∧
    (execute now op cb).events.head? = some evHalfOpen ∧
    (∀ s, op = Except.ok s →
      (execute now op cb).cb =
        (handle_success { cb with state := CircuitBreakerState.HalfOpen }).cb ∧
      (execute now op cb).cb.state = CircuitBreakerState.Closed ∧
      (execute now op cb).result = some (Except.ok s)) ∧
    (∀ e, op = Except.error e →
      (execute now op cb).cb =
        (handle_failure now { cb with state := CircuitBreakerState.HalfOpen }).cb ∧
      (execute now op cb).result = some (Except.error e)) := by
  have hnp : (closedPath now op { cb with state := CircuitBreakerState.HalfOpen }).panicked
      = false := closedPath_no_panic now op _ hsub
  unfold execute
  rw [hs]
  simp only [ht, if_true, hsub, if_pos]
  cases op with
  | ok s =>
    simp [closedPath, handle_success, reset]
  | error e =>
    simp only [closedPath] at hnp ⊢
    simp [hnp]

/-- Witness for C2: probing the sample open breaker after its cooldown with
a failing operation invokes it once and routes the failure through
`handle_failure`. -/
theorem execute_open_elapsed_probe_witness :
    (execute 99 (Except.error errReason) cbOpenSample).invocations = 1 ∧
    (execute 99 (Except.error errReason) cbOpenSample).cb =
      (handle_failure 99 { cbOpenSample with
        state := CircuitBreakerState.HalfOpen }).cb ∧
    (execute 99 (Except.error errReason) cbOpenSample).result =
      some (Except.error errReason) :=
  ⟨(execute_open_elapsed_probe 99 (Except.error errReason) cbOpenSample rfl (by decide)
      (by decide)).1,
   ((execute_open_elapsed_probe 99 (Except.error errReason) cbOpenSample rfl (by decide)
      (by decide)).2.2.2.2 errReason rfl).1,
   ((execute_open_elapsed_probe 99 (Except.error errReason) cbOpenSample rfl (by decide)
      (by decide)).2.2.2.2 errReason rfl).2⟩

/-- A sample breaker in the `Open` state with no subscriber registered. -/
def cbNoSubsSample : CircuitBreaker :=
  { state := CircuitBreakerState.Open
    consecutive_failures := 0
    total_failures := 1
    total_successes := 0
    max_failures := 1
    timeout := 1000
    open_timeout := 0
    pause_time := 0
    consecutive_successes := 0
    subscribers := 0 }

/-- C7: with zero subscribers, `trip` (the `"open"` emission) panics and the
`"halfOpen"` emission makes `execute` panic without ever invoking the
operation, while `reset` (the `"close"` emission) completes normally; with
at least one subscriber, none of `trip`, `reset`, or `execute` panics. -/
theorem emit_panic_asymmetry (now : Nat) (op : Except String String) (cb : CircuitBreaker) :
    (cb.subscribers = 0 →
      (trip now cb).panicked = true ∧
      (reset cb).panicked = false ∧
      (cb.state = CircuitBreakerState.Open → cb.open_timeout < now →
        (execute now op cb).panicked = true ∧ (execute now op cb).invocations = 0)) ∧
    (0 < cb.subscribers →
      (trip now cb).panicked = false ∧
      (reset cb).panicked = false ∧
      (execute now op cb).panicked = false) := by
  constructor
  · intro h0
    refine ⟨by simp [trip, h0], by simp [reset], ?_⟩
    intro hs ht
    unfold execute
    rw [hs]
    simp [ht, h0]
  · intro hsub
    refine ⟨by simp [trip, hsub], by simp [reset], ?_⟩
    have hcp := closedPath_no_panic now op
    cases hcb : cb.state with
    | Open =>
      unfold execute
      rw [hcb]
      by_cases ht : cb.open_timeout < now
      · simp only [ht, if_true, hsub, if_pos]
        exact hcp { cb with state := CircuitBreakerState.HalfOpen } hsub
      · simp [ht]
    | HalfOpen =>
      unfold execute
      rw [hcb]
    | Closed =>
      unfold execute
      rw [hcb]
      exact hcp cb hsub

/-- Witness for C7: the no-subscriber sample panics on `trip` and on the
half-open transition of `execute` but not on `reset`; the subscribed sample
panics nowhere. -/
theorem emit_panic_asymmetry_witness :
    (trip 3 cbNoSubsSample).panicked = true ∧
    (reset cbNoSubsSample).panicked = false ∧
    (execute 3 (Except.ok okPayload) cbNoSubsSample).panicked = true ∧
    (execute 3 (Except.ok okPayload) cbNoSubsSample).invocations = 0 ∧
    (trip 3 cbClosedSample).panicked = false ∧
    (execute 3 (Except.ok okPayload) cbClosedSample).panicked = false :=
  ⟨((emit_panic_asymmetry 3 (Except.ok okPayload) cbNoSubsSample).1 rfl).1,
   ((emit_panic_asymmetry 3 (Except.ok okPayload) cbNoSubsSample).1 rfl).2.1,
   (((emit_panic_asymmetry 3 (Except.ok okPayload) cbNoSubsSample).1 rfl).2.2 rfl
      (by decide)).1,
   (((emit_panic_asymmetry 3 (Except.ok okPayload) cbNoSubsSample).1 rfl).2.2 rfl
      (by decide)).2,
   ((emit_panic_asymmetry 3 (Except.ok okPayload) cbClosedSample).2 (by decide)).1,
   ((emit_panic_asymmetry 3 (Except.ok okPayload) cbClosedSample).2 (by decide)).2.2⟩

/-- The closed path never decreases either lifetime total. -/
theorem closedPath_totals_le (now : Nat) (op : Except String String) (cb : CircuitBreaker) :
    cb.total_failures ≤ (closedPath now op cb).cb.total_failures ∧
    cb.total_successes ≤ (closedPath now op cb).cb.total_successes := by
  cases op with
  | ok s => simp [closedPath, handle_success, reset]
  | error e =>
    simp only [closedPath, handle_failure]
    split <;> simp [trip]

/-- No single public operation decreases either lifetime total. -/
theorem applyOp_totals_le (o : Op) (cb : CircuitBreaker) :
    cb.total_failures ≤ (applyOp o cb).total_failures ∧
    cb.total_successes ≤ (applyOp o cb).total_successes := by
  cases o with
  | execute now op =>
    cases hcb : cb.state with
    | Open =>
      simp only [applyOp, execute]
      rw [hcb]
      by_cases ht : cb.open_timeout < now
      · by_cases hsub : 0 < cb.subscribers
        · simpa [ht, hsub] using closedPath_totals_le now op
            { cb with state := CircuitBreakerState.HalfOpen }
        · simp [ht, hsub]
      · simp [ht]
    | HalfOpen =>
      simp only [applyOp, execute]
      rw [hcb]
      exact ⟨le_refl _, le_refl _⟩
    | Closed =>
      simp only [applyOp, execute]
      rw [hcb]
      exact closedPath_totals_le now op cb
  | handle_success => simp [applyOp, handle_success, reset]
  | handle_failure now =>
    simp only [applyOp, handle_failure]
    split <;> simp [trip]
  | trip now => simp [applyOp, trip]
  | reset => simp [applyOp, reset]

/-- Running a sequence of operations never decreases either lifetime
total. -/
theorem runOps_totals_le (ops : List Op) (cb : CircuitBreaker) :
    cb.total_failures ≤ (runOps ops cb).total_failures ∧
    cb.total_successes ≤ (runOps ops cb).total_successes := by
  induction ops generalizing cb with
  | nil => exact ⟨le_refl _, le_refl _⟩
  | cons o t ih =>
    have h1 := applyOp_totals_le o cb
    have h2 := ih (applyOp o cb)
    exact ⟨le_trans h1.1 h2.1, le_trans h1.2 h2.2⟩

/-- C9: across every sequence of public operations (`execute`,
`handle_success`, `handle_failure`, `trip`, `reset`) the lifetime totals
`total_failures` and `total_successes` never decrease; in particular `trip`
and `reset` leave both exactly unchanged. -/
theorem totals_monotone (ops : List Op) (cb : CircuitBreaker) :
    (cb.total_failures ≤ (runOps ops cb).total_failures ∧
     cb.total_successes ≤ (runOps ops cb).total_successes) ∧
    (∀ now : Nat,
      (trip now cb).cb.total_failures = cb.total_failures ∧
      (trip now cb).cb.total_successes = cb.total_successes) ∧
    (reset cb).cb.total_failures = cb.total_failures ∧
    (reset cb).cb.total_successes = cb.total_successes :=
  ⟨runOps_totals_le ops cb, fun now => by simp [trip], by simp [reset], by simp [reset]⟩

/-- No single public operation increases `consecutive_successes`: every
mutator either leaves it untouched or zeroes it. -/
theorem applyOp_cs_le (o : Op) (cb : CircuitBreaker) :
    (applyOp o cb).consecutive_successes ≤ cb.consecutive_successes := by
  have hcp : ∀ (now : Nat) (op : Except String String) (c : CircuitBreaker),
      (closedPath now op c).cb.consecutive_successes ≤ c.consecutive_successes := by
    intro now op c
    cases op with
    | ok s => simp [closedPath, handle_success, reset]
    | error e =>
      simp only [closedPath, handle_failure]
      split <;> simp [trip]
  cases o with
  | execute now op =>
    cases hcb : cb.state with
    | Open =>
      simp only [applyOp, execute]
      rw [hcb]
      by_cases ht : cb.open_timeout < now
      · by_cases hsub : 0 < cb.subscribers
        · simpa [ht, hsub] using hcp now op { cb with state := CircuitBreakerState.HalfOpen }
        · simp [ht, hsub]
      · simp [ht]
    | HalfOpen =>
      simp only [applyOp, execute]
      rw [hcb]
    | Closed =>
      simp only [applyOp, execute]
      rw [hcb]
      exact hcp now op cb
  | handle_success => simp [applyOp, handle_success, reset]
  | handle_failure now =>
    simp only [applyOp, handle_failure]
    split <;> simp [trip]
  | trip now => simp [applyOp, trip]
  | reset => simp [applyOp, reset]

/-- C10: `new` starts `consecutive_successes` at 0 and no public operation
ever increments it (each either keeps it or zeroes it), so after every
sequence of public operations on a freshly constructed breaker it is still
0 — one side of the mutual-exclusivity invariant of the spec is constantly
zero. -/
theorem consecutive_successes_stays_zero (ops : List Op)
    (mf t p now0 : Nat) :
    (∀ (o : Op) (cb : CircuitBreaker),
      (applyOp o cb).consecutive_successes ≤ cb.consecutive_successes) ∧
    (runOps ops (new mf t p now0)).consecutive_successes = 0 := by
  refine ⟨applyOp_cs_le, ?_⟩
  have hz : ∀ (l : List Op) (cb : CircuitBreaker), cb.consecutive_successes = 0 →
      (runOps l cb).consecutive_successes = 0 := by
    intro l
    induction l with
    | nil => intro cb h; exact h
    | cons o t ih =>
      intro cb h
      exact ih (applyOp o cb) (Nat.le_antisymm (h ▸ applyOp_cs_le o cb) (Nat.zero_le _))
  exact hz ops (new mf t p now0) rfl

/-- `handle_failure` keeps an `Open` breaker `Open`: it either changes no
state at all or trips, and `trip` sets the state to `Open`. -/
theorem handle_failure_keeps_open (now : Nat) (cb : CircuitBreaker)
    (h : cb.state = CircuitBreakerState.Open) :
    (handle_failure now cb).cb.state = CircuitBreakerState.Open := by
  simp only [handle_failure]
  split
  · simp [trip]
  · simpa using h

/-- A run of consecutive failures keeps an `Open` breaker `Open`. -/
theorem runFailures_keeps_open (now : Nat) (n : Nat) (cb : CircuitBreaker)
    (h : cb.state = CircuitBreakerState.Open) :
    (runFailures now n cb).1.state = CircuitBreakerState.Open := by
  induction n generalizing cb with
  | zero => simpa [runFailures] using h
  | succ k ih =>
    simp only [runFailures]
    exact ih (handle_failure now cb).cb (handle_failure_keeps_open now cb h)

/-- After at least `max_failures - consecutive_failures` further consecutive
failures (and at least one), the breaker is `Open`. -/
theorem runFailures_reaches_open (now : Nat) (n : Nat) (cb : CircuitBreaker)
    (h1 : 1 ≤ n) (h2 : cb.max_failures ≤ cb.consecutive_failures + n) :
    (runFailures now n cb).1.state = CircuitBreakerState.Open := by
  induction n generalizing cb with
  | zero => omega
  | succ k ih =>
    simp only [runFailures]
    by_cases hth : cb.max_failures ≤ cb.consecutive_failures + 1
    · have hopen : (handle_failure now cb).cb.state = CircuitBreakerState.Open := by
        simp only [handle_failure]
        rw [if_pos (by simpa using hth)]
        simp [trip]
      exact runFailures_keeps_open now k _ hopen
    · have hcb1 : (handle_failure now cb).cb =
          { cb with
            consecutive_failures := cb.consecutive_failures + 1
            total_failures := cb.total_failures + 1 } := by
        simp only [handle_failure]
        rw [if_neg (by simpa using hth)]
      rw [hcb1]
      exact ih _ (by omega) (by simp; omega)

/-- A sample closed breaker with `max_failures = 1` and a subscriber. -/
def cbOneMaxSample : CircuitBreaker :=
  { state := CircuitBreakerState.Closed
    consecutive_failures := 0
    total_failures := 0
    total_successes := 0
    max_failures := 1
    timeout := 1000
    open_timeout := 0
    pause_time := 0
    consecutive_successes := 0
    subscribers := 1 }

/-- Counterexample to C6 as stated: starting `Closed` with
`max_failures = 1`, the first failure trips the breaker to `Open`, yet a
second consecutive failure calls `trip` again — the run of two failures
delivers the `"open"` event twice and refreshes `open_timeout` — so
"additional consecutive failures beyond the threshold do not cause a second
trip / trip is not called again" is false. -/
theorem runFailures_second_trip :
    cbOneMaxSample.state = CircuitBreakerState.Closed ∧
    cbOneMaxSample.max_failures = 1 ∧
    (runFailures 0 1 cbOneMaxSample).1.state = CircuitBreakerState.Open ∧
    (runFailures 0 2 cbOneMaxSample).2 = [evOpen, evOpen] := by
  refine ⟨rfl, rfl, rfl, ?_⟩
  decide

/-- C6 (amended): for every sequence of at least `max_failures ≥ 1`
consecutive failures starting while `Closed`, the breaker ends `Open` and
idempotently stays `Open` under arbitrarily many further consecutive
failures (the state leaves `Closed` for `Open` once and never returns
during the failure run) — though `trip` itself can run again, as the
counterexample shows. -/
theorem failures_reach_open_and_stay (now n : Nat) (cb : CircuitBreaker)
    (hmf : 1 ≤ cb.max_failures) (hn : cb.max_failures ≤ n)
    (_hs : cb.state = CircuitBreakerState.Closed) :
    (runFailures now n cb).1.state = CircuitBreakerState.Open ∧
    ∀ m : Nat,
      (runFailures now m (runFailures now n cb).1).1.state = CircuitBreakerState.Open := by
  have h1 : (runFailures now n cb).1.state = CircuitBreakerState.Open :=
    runFailures_reaches_open now n cb (le_trans hmf hn) (by omega)
  exact ⟨h1, fun m => runFailures_keeps_open now m _ h1⟩

/-- Witness for the amended C6: three consecutive failures on the sample
closed breaker with `max_failures = 1` leave it `Open`, and seven more keep
it `Open`. -/
theorem failures_reach_open_and_stay_witness :
    (runFailures 0 3 cbOneMaxSample).1.state = CircuitBreakerState.Open ∧
    (runFailures 0 7 (runFailures 0 3 cbOneMaxSample).1).1.state =
      CircuitBreakerState.Open :=
  ⟨(failures_reach_open_and_stay 0 3 cbOneMaxSample (by decide) (by decide) rfl).1,
   (failures_reach_open_and_stay 0 3 cbOneMaxSample (by decide) (by decide) rfl).2 7⟩

end RsSafeCircuit
